import Mathlib

/-!
Verification of the prompt-token estimator in
pkg/agents/chatcompletion/tokens.go.

The repository code under scrutiny is the single function
countPromptTokens together with its normalization helper toTokenRequest.
The external tokenizer library (tiktoken) is modelled as an oracle
parameter: EncodingForModel becomes a function from model strings to an
optional counting function, and Encode becomes the counting function
itself (returning the number of token ids for a string).
-/

namespace ClickyChats

/-- A model of JSON values, used to embed the serialize/reparse round trip
that toTokenRequest performs via encoding/json. -/
inductive Json where
  | str (s : String)
  | num (n : Int)
  | bool (b : Bool)
  | arr (xs : List Json)
  | obj (fields : List (String × Json))
  | null
deriving Repr

/-- Modelled from the spec: a message of the chat completion request owned
by the external db package (not part of the verified sources). The spec
describes it as a record with role, optional name and text content, plus
further fields (tool call payloads and the like) that the normalization
intentionally drops; those are modelled as opaque extra JSON fields. -/
structure ChatCompletionRequestMessage where
  role : String
  name : String
  content : String
  extraFields : List (String × Json)

/-- Modelled from the spec: db.CreateChatCompletionRequest, an ordered
sequence of messages which may also carry tool/function definitions and
other request fields; tools and the remaining fields are opaque to the
token counter and modelled as raw JSON. -/
structure CreateChatCompletionRequest where
  messages : List ChatCompletionRequestMessage
  tools : List Json
  extraFields : List (String × Json)

/-- The minimal message shape countPromptTokens works on
(type tokenMessage in tokens.go). -/
structure tokenMessage where
  Name : String
  Role : String
  Content : String
deriving Repr, DecidableEq

/-- The minimal request shape countPromptTokens works on
(type tokenRequest in tokens.go). -/
structure tokenRequest where
  Messages : List tokenMessage
deriving Repr, DecidableEq

/-- Modelled from the spec: json.Marshal on a db message serializes its
role, content and name alongside whatever other fields the message carries. -/
def marshalMessage (m : ChatCompletionRequestMessage) : Json :=
  .obj (("role", .str m.role) :: ("content", .str m.content) ::
    ("name", .str m.name) :: m.extraFields)

/-- Modelled from the spec: json.Marshal on a db request serializes the
message list under the key "messages" alongside the tool definitions and
any further request fields. -/
def marshalRequest (r : CreateChatCompletionRequest) : Json :=
  .obj (("messages", .arr (r.messages.map marshalMessage)) ::
    ("tools", .arr r.tools) :: r.extraFields)

/-- Key lookup in a JSON object, first occurrence wins. -/
def jsonLookup (key : String) : List (String × Json) → Option Json
  | [] => none
  | (k, v) :: rest => if k = key then some v else jsonLookup key rest

/-- Decoding a Go string struct field: an absent key or a JSON null leaves
the zero value "", a JSON string is taken verbatim, and any other JSON
value is a type error. -/
def getStringField (key : String) (fields : List (String × Json)) :
    Except String String :=
  match jsonLookup key fields with
  | none => .ok ""
  | some (.str s) => .ok s
  | some .null => .ok ""
  | some _ => .error ("cannot unmarshal value into field " ++ key)

/-- json.Unmarshal into tokenMessage: reads the "name", "role" and
"content" keys as strings, ignoring every other key. -/
def unmarshalTokenMessage : Json → Except String tokenMessage
  | .obj fields => do
      let name ← getStringField "name" fields
      let role ← getStringField "role" fields
      let content ← getStringField "content" fields
      .ok { Name := name, Role := role, Content := content }
  | .null => .ok { Name := "", Role := "", Content := "" }
  | _ => .error "cannot unmarshal value into tokenMessage"

/-- Elementwise decoding of a JSON array into a slice of tokenMessage. -/
def unmarshalTokenMessages : List Json → Except String (List tokenMessage)
  | [] => .ok []
  | x :: xs => do
      let m ← unmarshalTokenMessage x
      let ms ← unmarshalTokenMessages xs
      .ok (m :: ms)

/-- json.Unmarshal into tokenRequest: reads the "messages" key as an array
of messages; an absent key or JSON null leaves the nil slice. -/
def unmarshalTokenRequest : Json → Except String tokenRequest
  | .obj fields =>
      match jsonLookup "messages" fields with
      | none => .ok { Messages := [] }
      | some .null => .ok { Messages := [] }
      | some (.arr xs) =>
          match unmarshalTokenMessages xs with
          | .error e => .error e
          | .ok msgs => .ok { Messages := msgs }
      | some _ => .error "cannot unmarshal value into field Messages"
  | .null => .ok { Messages := [] }
  | _ => .error "cannot unmarshal value into tokenRequest"

/-- toTokenRequest from tokens.go: marshal the db request to JSON and
re-parse it into the minimal tokenRequest shape. -/
def toTokenRequest (r : CreateChatCompletionRequest) :
    Except String tokenRequest :=
  unmarshalTokenRequest (marshalRequest r)

/-- The {name, role, content} projection the round trip is meant to
implement. -/
def projectMessage (m : ChatCompletionRequestMessage) : tokenMessage :=
  { Name := m.name, Role := m.role, Content := m.content }

lemma unmarshalTokenMessage_marshalMessage (m : ChatCompletionRequestMessage) :
    unmarshalTokenMessage (marshalMessage m) = .ok (projectMessage m) := by
  simp [unmarshalTokenMessage, marshalMessage, getStringField, jsonLookup,
    projectMessage, Bind.bind, Except.bind]

lemma unmarshalTokenMessages_marshal (ms : List ChatCompletionRequestMessage) :
    unmarshalTokenMessages (ms.map marshalMessage) =
      .ok (ms.map projectMessage) := by
  induction ms with
  | nil => rfl
  | cons m ms ih =>
      simp [unmarshalTokenMessages, unmarshalTokenMessage_marshalMessage, ih,
        Bind.bind, Except.bind]

/-- The JSON round trip computes exactly the {name, role, content}
projection of the message list, and never fails. -/
lemma toTokenRequest_eq (r : CreateChatCompletionRequest) :
    toTokenRequest r = .ok { Messages := r.messages.map projectMessage } := by
  simp [toTokenRequest, marshalRequest, unmarshalTokenRequest, jsonLookup,
    unmarshalTokenMessages_marshal]

/-- The per-model fixed overhead constants (type fixedTokenCost in
tokens.go). -/
structure fixedTokenCost where
  message : Int
  name : Int
  tools : Int
  toolParameters : Int
  toolParameterPropertyType : Int
  toolParameterPropertyDescription : Int
  toolParameterPropertyEnum : Int
  toolParameterPropertyEnumElement : Int
deriving Repr, DecidableEq

/-- The constants countPromptTokens installs before the model switch
(only the tool-related ones; message and name are set per family). -/
def baseFixedCost : fixedTokenCost where
  message := 0
  name := 0
  tools := 12
  toolParameters := 11
  toolParameterPropertyType := 2
  toolParameterPropertyDescription := 2
  toolParameterPropertyEnum := -3
  toolParameterPropertyEnumElement := 3

/-- Does hay start with needle? (character-exact, hence case-sensitive). -/
def charsStartWith : List Char → List Char → Bool
  | [], _ => true
  | _ :: _, [] => false
  | a :: as, b :: bs => a == b && charsStartWith as bs

/-- Does needle occur as a contiguous run anywhere in hay? -/
def charsOccur (needle : List Char) : List Char → Bool
  | [] => charsStartWith needle []
  | c :: cs => charsStartWith needle (c :: cs) || charsOccur needle cs

/-- Go's strings.Contains: substr occurs as a substring of s. -/
def stringsContains (s substr : String) : Bool :=
  charsOccur substr.data s.data

/-- The six model identifiers of the first switch case in
countPromptTokens (message cost 3, name cost 1). -/
def exactModels0613 : List String :=
  ["gpt-3.5-turbo-0613", "gpt-3.5-turbo-16k-0613", "gpt-4-0314",
   "gpt-4-32k-0314", "gpt-4-0613", "gpt-4-32k-0613"]

/-- Outcome of the model switch in countPromptTokens. -/
inductive ModelResolution where
  | profile (fc : fixedTokenCost)
  | alias35turbo
  | alias4
  | unknown
deriving Repr, DecidableEq

/-- The fixed costs of the "0613"/"0314" family: 3 per message, 1 per
present name. -/
def profile0613 : fixedTokenCost :=
  { baseFixedCost with message := 3, name := 1 }

/-- The fixed costs of the legacy "gpt-3.5-turbo-0301" family: 4 per
message, -1 per present name (the role token is omitted when a name is
present). -/
def profile0301 : fixedTokenCost :=
  { baseFixedCost with message := 4, name := -1 }

/-- The model switch of countPromptTokens: exact match against the two
fixed-cost families first, then the case-sensitive substring fallbacks,
"gpt-3.5-turbo" checked before "gpt-4". -/
def resolveModel (model : String) : ModelResolution :=
  if model ∈ exactModels0613 then .profile profile0613
  else if model = "gpt-3.5-turbo-0301" then .profile profile0301
  else if stringsContains model "gpt-3.5-turbo" then .alias35turbo
  else if stringsContains model "gpt-4" then .alias4
  else .unknown

/-- The error cases of countPromptTokens, named after the spec's error
taxonomy. outOfFuel is an artifact of the fueled embedding of the
recursive fallback and is proved unreachable. -/
inductive CountError where
  | invalidInput
  | tokenizerUnavailable (model : String)
  | unsupportedModel (model : String)
  | normalizationFailure
  | outOfFuel
deriving Repr, DecidableEq

/-- The body of the per-message loop of countPromptTokens: add the
per-message fixed cost, the token counts of content, role and name, and
the name fixed cost when the name is non-empty. -/
def messageStep (count : String → Nat) (fixedCost : fixedTokenCost)
    (tokens : Int) (msg : tokenMessage) : Int :=
  let tokens := tokens + fixedCost.message
  let tokens := [msg.Content, msg.Role, msg.Name].foldl
    (fun t s => t + (count s : Int)) tokens
  if msg.Name ≠ "" then tokens + fixedCost.name else tokens

/-- The full message loop of countPromptTokens, starting from 0. -/
def sumMessageTokens (count : String → Nat) (fixedCost : fixedTokenCost)
    (msgs : List tokenMessage) : Int :=
  msgs.foldl (messageStep count fixedCost) 0

/-- One unfolding of countPromptTokens: nil-request check, tokenizer
acquisition for the given model string, the model switch, normalization,
and the message loop; the two alias branches defer to recur. -/
def countPromptTokensStep (enc : String → Option (String → Nat))
    (recur : String → Option CreateChatCompletionRequest → Int × Option CountError)
    (model : String) (cc : Option CreateChatCompletionRequest) :
    Int × Option CountError :=
  match cc with
  | none => (0, some .invalidInput)
  | some cc =>
    match enc model with
    | none => (0, some (.tokenizerUnavailable model))
    | some tkm =>
      match resolveModel model with
      | .profile fixedCost =>
        match toTokenRequest cc with
        | .error _ => (0, some .normalizationFailure)
        | .ok req => (sumMessageTokens tkm fixedCost req.Messages, none)
      | .alias35turbo => recur "gpt-3.5-turbo-0613" (some cc)
      | .alias4 => recur "gpt-4-0613" (some cc)
      | .unknown => (0, some (.unsupportedModel model))

/-- The fueled embedding of the recursive countPromptTokens. -/
def countPromptTokensFuel (enc : String → Option (String → Nat)) :
    Nat → String → Option CreateChatCompletionRequest → Int × Option CountError
  | 0, _, _ => (0, some .outOfFuel)
  | fuel + 1, model, cc =>
      countPromptTokensStep enc (countPromptTokensFuel enc fuel) model cc

/-- countPromptTokens from tokens.go, with the tiktoken library abstracted
into the oracle enc. Fuel 2 suffices because the recursive fallback always
lands on an exact-match model. -/
def countPromptTokens (enc : String → Option (String → Nat))
    (model : String) (cc : Option CreateChatCompletionRequest) :
    Int × Option CountError :=
  countPromptTokensFuel enc 2 model cc

/-- The per-message token contribution as described by the spec: the
per-message fixed cost, plus the token counts of content, role and name,
plus the name fixed cost exactly when the name is non-empty. -/
def specMessageTokens (count : String → Nat) (fixedCost : fixedTokenCost)
    (m : tokenMessage) : Int :=
  fixedCost.message + (count m.Content : Int) + (count m.Role : Int) +
    (count m.Name : Int) + (if m.Name = "" then 0 else fixedCost.name)

lemma messageStep_eq (count : String → Nat) (fc : fixedTokenCost)
    (t : Int) (m : tokenMessage) :
    messageStep count fc t m = t + specMessageTokens count fc m := by
  by_cases h : m.Name = "" <;>
    simp [messageStep, specMessageTokens, List.foldl, h] <;> ring

lemma foldl_messageStep (count : String → Nat) (fc : fixedTokenCost)
    (msgs : List tokenMessage) (a : Int) :
    msgs.foldl (messageStep count fc) a =
      a + (msgs.map (specMessageTokens count fc)).sum := by
  induction msgs generalizing a with
  | nil => simp
  | cons m ms ih => simp [List.foldl, messageStep_eq, ih]; ring

/-- The message loop computes the sum of the spec's per-message
contributions. -/
lemma sumMessageTokens_eq (count : String → Nat) (fc : fixedTokenCost)
    (msgs : List tokenMessage) :
    sumMessageTokens count fc msgs =
      (msgs.map (specMessageTokens count fc)).sum := by
  simp [sumMessageTokens, foldl_messageStep]

lemma resolveModel_gpt35_0613 :
    resolveModel "gpt-3.5-turbo-0613" = .profile profile0613 := by decide

lemma resolveModel_gpt4_0613 :
    resolveModel "gpt-4-0613" = .profile profile0613 := by decide

/-- The step is insensitive to the recursion argument on every model whose
resolution is not an alias. -/
lemma countPromptTokensStep_indep (enc : String → Option (String → Nat))
    (r r' : String → Option CreateChatCompletionRequest → Int × Option CountError)
    (model : String) (cc : Option CreateChatCompletionRequest)
    (h35 : resolveModel model ≠ .alias35turbo)
    (h4 : resolveModel model ≠ .alias4) :
    countPromptTokensStep enc r model cc = countPromptTokensStep enc r' model cc := by
  unfold countPromptTokensStep
  cases cc with
  | none => rfl
  | some cc =>
    cases enc model with
    | none => rfl
    | some tkm =>
      cases h : resolveModel model with
      | profile fc => rfl
      | alias35turbo => exact absurd h h35
      | alias4 => exact absurd h h4
      | unknown => rfl

/-- On a non-alias model the fueled function does not look at the fuel
once it is positive. -/
lemma countPromptTokensFuel_succ_indep (enc : String → Option (String → Nat))
    (model : String) (cc : Option CreateChatCompletionRequest)
    (h35 : resolveModel model ≠ .alias35turbo)
    (h4 : resolveModel model ≠ .alias4) (f1 f2 : Nat) :
    countPromptTokensFuel enc (f1 + 1) model cc =
      countPromptTokensFuel enc (f2 + 1) model cc := by
  simp only [countPromptTokensFuel]
  exact countPromptTokensStep_indep enc _ _ model cc h35 h4

/-- Any fuel of at least 2 computes countPromptTokens. -/
lemma countPromptTokensFuel_stable (enc : String → Option (String → Nat))
    (model : String) (cc : Option CreateChatCompletionRequest) (k : Nat) :
    countPromptTokensFuel enc (k + 2) model cc = countPromptTokens enc model cc := by
  unfold countPromptTokens
  show countPromptTokensStep enc (countPromptTokensFuel enc (k + 1)) model cc =
    countPromptTokensStep enc (countPromptTokensFuel enc 1) model cc
  unfold countPromptTokensStep
  cases cc with
  | none => rfl
  | some cc =>
    cases enc model with
    | none => rfl
    | some tkm =>
      cases h : resolveModel model with
      | profile fc => rfl
      | alias35turbo =>
          exact countPromptTokensFuel_succ_indep enc _ _
            (by rw [resolveModel_gpt35_0613]; intro hcon; cases hcon)
            (by rw [resolveModel_gpt35_0613]; intro hcon; cases hcon) k 0
      | alias4 =>
          exact countPromptTokensFuel_succ_indep enc _ _
            (by rw [resolveModel_gpt4_0613]; intro hcon; cases hcon)
            (by rw [resolveModel_gpt4_0613]; intro hcon; cases hcon) k 0
      | unknown => rfl

/-- Evaluation of one step on a model with an exact fixed-cost profile:
the result is the message-loop sum over the projected messages, with no
error. -/
lemma countPromptTokensStep_profile (enc : String → Option (String → Nat))
    (recur : String → Option CreateChatCompletionRequest → Int × Option CountError)
    (model : String) (cc : CreateChatCompletionRequest) (fc : fixedTokenCost)
    (tkm : String → Nat) (hres : resolveModel model = .profile fc)
    (henc : enc model = some tkm) :
    countPromptTokensStep enc recur model (some cc) =
      (sumMessageTokens tkm fc (cc.messages.map projectMessage), none) := by
  simp [countPromptTokensStep, henc, hres, toTokenRequest_eq]

/-- Evaluation of countPromptTokens on a model with an exact fixed-cost
profile. -/
lemma countPromptTokens_profile (enc : String → Option (String → Nat))
    (model : String) (cc : CreateChatCompletionRequest) (fc : fixedTokenCost)
    (tkm : String → Nat) (hres : resolveModel model = .profile fc)
    (henc : enc model = some tkm) :
    countPromptTokens enc model (some cc) =
      (sumMessageTokens tkm fc (cc.messages.map projectMessage), none) := by
  show countPromptTokensStep enc (countPromptTokensFuel enc 1) model (some cc) = _
  exact countPromptTokensStep_profile enc _ model cc fc tkm hres henc

lemma resolveModel_gpt35_0301 :
    resolveModel "gpt-3.5-turbo-0301" = .profile profile0301 := by decide

lemma resolveModel_totally_unknown :
    resolveModel "totally-unknown-model" = .unknown := by decide

lemma countPromptTokens_nil (enc : String → Option (String → Nat))
    (model : String) :
    countPromptTokens enc model none = (0, some .invalidInput) := rfl

lemma countPromptTokens_noEnc (enc : String → Option (String → Nat))
    (model : String) (cc : CreateChatCompletionRequest)
    (henc : enc model = none) :
    countPromptTokens enc model (some cc) =
      (0, some (.tokenizerUnavailable model)) := by
  show countPromptTokensStep enc (countPromptTokensFuel enc 1) model (some cc) = _
  simp [countPromptTokensStep, henc]

lemma countPromptTokens_unknownModel (enc : String → Option (String → Nat))
    (model : String) (cc : CreateChatCompletionRequest) (tkm : String → Nat)
    (hres : resolveModel model = .unknown) (henc : enc model = some tkm) :
    countPromptTokens enc model (some cc) =
      (0, some (.unsupportedModel model)) := by
  show countPromptTokensStep enc (countPromptTokensFuel enc 1) model (some cc) = _
  simp [countPromptTokensStep, henc, hres]

lemma countPromptTokens_alias35 (enc : String → Option (String → Nat))
    (model : String) (cc : CreateChatCompletionRequest) (tkm : String → Nat)
    (hres : resolveModel model = .alias35turbo) (henc : enc model = some tkm) :
    countPromptTokens enc model (some cc) =
      countPromptTokens enc "gpt-3.5-turbo-0613" (some cc) := by
  show countPromptTokensStep enc (countPromptTokensFuel enc 1) model (some cc) = _
  simp only [countPromptTokensStep, henc, hres]
  exact countPromptTokensFuel_succ_indep enc _ _
    (by rw [resolveModel_gpt35_0613]; intro hcon; cases hcon)
    (by rw [resolveModel_gpt35_0613]; intro hcon; cases hcon) 0 1

lemma countPromptTokens_alias4 (enc : String → Option (String → Nat))
    (model : String) (cc : CreateChatCompletionRequest) (tkm : String → Nat)
    (hres : resolveModel model = .alias4) (henc : enc model = some tkm) :
    countPromptTokens enc model (some cc) =
      countPromptTokens enc "gpt-4-0613" (some cc) := by
  show countPromptTokensStep enc (countPromptTokensFuel enc 1) model (some cc) = _
  simp only [countPromptTokensStep, henc, hres]
  exact countPromptTokensFuel_succ_indep enc _ _
    (by rw [resolveModel_gpt4_0613]; intro hcon; cases hcon)
    (by rw [resolveModel_gpt4_0613]; intro hcon; cases hcon) 0 1

/-- Exhaustive shape of a countPromptTokens result: either no error, or a
zero count together with one of the four errors of the spec's taxonomy. -/
lemma countPromptTokens_result_cases (enc : String → Option (String → Nat))
    (model : String) (occ : Option CreateChatCompletionRequest) :
    (countPromptTokens enc model occ).2 = none ∨
    countPromptTokens enc model occ = (0, some .invalidInput) ∨
    (∃ m, countPromptTokens enc model occ = (0, some (.tokenizerUnavailable m))) ∨
    (∃ m, countPromptTokens enc model occ = (0, some (.unsupportedModel m))) ∨
    countPromptTokens enc model occ = (0, some .normalizationFailure) := by
  cases occ with
  | none => exact Or.inr (Or.inl (countPromptTokens_nil enc model))
  | some cc =>
    cases henc : enc model with
    | none =>
        exact Or.inr (Or.inr (Or.inl ⟨model, countPromptTokens_noEnc enc model cc henc⟩))
    | some tkm =>
      cases hres : resolveModel model with
      | profile fc =>
          rw [countPromptTokens_profile enc model cc fc tkm hres henc]
          exact Or.inl rfl
      | alias35turbo =>
          rw [countPromptTokens_alias35 enc model cc tkm hres henc]
          cases henc2 : enc "gpt-3.5-turbo-0613" with
          | none =>
              exact Or.inr (Or.inr (Or.inl ⟨"gpt-3.5-turbo-0613",
                countPromptTokens_noEnc enc _ cc henc2⟩))
          | some tkm2 =>
              rw [countPromptTokens_profile enc _ cc profile0613 tkm2
                resolveModel_gpt35_0613 henc2]
              exact Or.inl rfl
      | alias4 =>
          rw [countPromptTokens_alias4 enc model cc tkm hres henc]
          cases henc2 : enc "gpt-4-0613" with
          | none =>
              exact Or.inr (Or.inr (Or.inl ⟨"gpt-4-0613",
                countPromptTokens_noEnc enc _ cc henc2⟩))
          | some tkm2 =>
              rw [countPromptTokens_profile enc _ cc profile0613 tkm2
                resolveModel_gpt4_0613 henc2]
              exact Or.inl rfl
      | unknown =>
          exact Or.inr (Or.inr (Or.inr (Or.inl ⟨model,
            countPromptTokens_unknownModel enc model cc tkm hres henc⟩)))

/-- A sample tokenizer for concrete evaluations: counts one token per
character. -/
def lengthTokenizer : String → Nat := String.length

/-- A tokenizer oracle that succeeds on every model string. -/
def encAll : String → Option (String → Nat) := fun _ => some lengthTokenizer

/-- A request with no messages, no tools and no extra fields. -/
def emptyReq : CreateChatCompletionRequest := ⟨[], [], []⟩

/-- A request with the single message of the spec's worked example:
role "user", content "hello", empty name. -/
def exampleReq : CreateChatCompletionRequest :=
  ⟨[⟨"user", "", "hello", []⟩], [], []⟩

/-- The counter reads a request only through the {name, role, content}
projection of its message list. -/
lemma countPromptTokensFuel_congr (enc : String → Option (String → Nat))
    (cc1 cc2 : CreateChatCompletionRequest)
    (h : cc1.messages.map projectMessage = cc2.messages.map projectMessage) :
    ∀ fuel model, countPromptTokensFuel enc fuel model (some cc1) =
      countPromptTokensFuel enc fuel model (some cc2) := by
  intro fuel
  induction fuel with
  | zero => intro model; rfl
  | succ k ih =>
      intro model
      simp only [countPromptTokensFuel, countPromptTokensStep]
      cases henc : enc model with
      | none => rfl
      | some tkm =>
        cases hres : resolveModel model with
        | profile fc => rw [toTokenRequest_eq cc1, toTokenRequest_eq cc2, h]
        | alias35turbo => exact ih "gpt-3.5-turbo-0613"
        | alias4 => exact ih "gpt-4-0613"
        | unknown => rfl

/-- Either installed profile charges at least 3 per message. -/
lemma three_le_specMessageTokens (tkm : String → Nat) (fc : fixedTokenCost)
    (m : tokenMessage) (h : fc = profile0613 ∨ fc = profile0301) :
    3 ≤ specMessageTokens tkm fc m := by
  rcases h with h | h <;> subst h <;> by_cases hn : m.Name = "" <;>
    simp [specMessageTokens, profile0613, profile0301, baseFixedCost, hn] <;>
    omega

lemma three_mul_length_le_sum (f : tokenMessage → Int) (l : List tokenMessage)
    (h : ∀ m, 3 ≤ f m) : 3 * (l.length : Int) ≤ (l.map f).sum := by
  induction l with
  | nil => simp
  | cons m ms ih =>
      have := h m
      simp only [List.map, List.sum_cons, List.length_cons]
      push_cast
      linarith

/-- resolveModel installs one of exactly two fixed-cost profiles. -/
lemma resolveModel_profile_cases (model : String) (fc : fixedTokenCost)
    (h : resolveModel model = .profile fc) :
    fc = profile0613 ∨ fc = profile0301 := by
  unfold resolveModel at h
  split at h
  · exact Or.inl (by cases h; rfl)
  · split at h
    · exact Or.inr (by cases h; rfl)
    · split at h
      · cases h
      · split at h
        · cases h
        · cases h

/-- Whenever the fueled counter returns without error, the count is at
least 3 per input message. -/
lemma countPromptTokensFuel_ok_bound (enc : String → Option (String → Nat)) :
    ∀ (fuel : Nat) (model : String) (cc : CreateChatCompletionRequest) (n : Int),
      countPromptTokensFuel enc fuel model (some cc) = (n, none) →
      3 * (cc.messages.length : Int) ≤ n := by
  intro fuel
  induction fuel with
  | zero => intro model cc n h; simp [countPromptTokensFuel] at h
  | succ k ih =>
      intro model cc n h
      simp only [countPromptTokensFuel, countPromptTokensStep] at h
      cases henc : enc model with
      | none => rw [henc] at h; simp at h
      | some tkm =>
        rw [henc] at h
        cases hres : resolveModel model with
        | profile fc =>
            rw [hres, toTokenRequest_eq cc] at h
            simp only [Prod.mk.injEq] at h
            obtain ⟨hn, -⟩ := h
            subst hn
            rw [sumMessageTokens_eq]
            have hb := three_mul_length_le_sum (specMessageTokens tkm fc)
              (cc.messages.map projectMessage)
              (fun m => three_le_specMessageTokens tkm fc m
                (resolveModel_profile_cases model fc hres))
            simpa using hb
        | alias35turbo => rw [hres] at h; exact ih _ cc n h
        | alias4 => rw [hres] at h; exact ih _ cc n h
        | unknown => rw [hres] at h; simp at h

/-- A tokenizer oracle that fails exactly on the string
"custom-gpt-3.5-turbo". -/
def encNoCustom : String → Option (String → Nat) :=
  fun m => if m = "custom-gpt-3.5-turbo" then none else some lengthTokenizer

/-- A tokenizer oracle that fails exactly on the string
"totally-unknown-model". -/
def encNoUnknown : String → Option (String → Nat) :=
  fun m => if m = "totally-unknown-model" then none else some lengthTokenizer

/-- A request holding one message with the given name, role and content
and nothing else. -/
def namedMessageReq (nm role content : String) : CreateChatCompletionRequest :=
  ⟨[⟨role, nm, content, []⟩], [], []⟩

/-- Claim C1: for every supported model and every non-nil request that
normalizes successfully, countPromptTokens returns the sum, over the
normalized messages in order, of the per-message fixed cost plus the
tokenizer counts of the message's content, role and name, plus the name
fixed cost exactly when the name is non-empty; in particular the single
message with role "user", content "hello" and empty name under the
gpt-3.5-turbo-0613 profile counts 3 + count "hello" + count "user" with
no name bonus, and a message with empty content, role and name still
contributes the per-message fixed cost. -/
theorem c1_prompt_token_sum :
    (∀ (enc : String → Option (String → Nat)) (tkm : String → Nat)
        (model : String) (fc : fixedTokenCost)
        (cc : CreateChatCompletionRequest) (req : tokenRequest),
      resolveModel model = .profile fc → enc model = some tkm →
      toTokenRequest cc = .ok req →
      countPromptTokens enc model (some cc) =
        ((req.Messages.map (specMessageTokens tkm fc)).sum, none))
    ∧ (∀ (enc : String → Option (String → Nat)) (tkm : String → Nat),
      enc "gpt-3.5-turbo-0613" = some tkm → tkm "" = 0 →
      countPromptTokens enc "gpt-3.5-turbo-0613" (some exampleReq) =
        ((3 : Int) + (tkm "hello" : Int) + (tkm "user" : Int), none))
    ∧ (∀ (tkm : String → Nat) (fc : fixedTokenCost), tkm "" = 0 →
      specMessageTokens tkm fc ⟨"", "", ""⟩ = fc.message) := by
  refine ⟨?_, ?_, ?_⟩
  · intro enc tkm model fc cc req hres henc hnorm
    rw [toTokenRequest_eq cc] at hnorm
    cases hnorm
    rw [countPromptTokens_profile enc model cc fc tkm hres henc,
      sumMessageTokens_eq]
  · intro enc tkm henc h0
    rw [countPromptTokens_profile enc _ exampleReq profile0613 tkm
      resolveModel_gpt35_0613 henc, sumMessageTokens_eq]
    simp [exampleReq, projectMessage, specMessageTokens, profile0613,
      baseFixedCost, h0]
  · intro tkm fc h0
    simp [specMessageTokens, h0]

/-- Claim C1 witness: the worked example evaluated with a concrete
tokenizer counting one token per character. -/
theorem c1_prompt_token_sum_witness :
    countPromptTokens encAll "gpt-3.5-turbo-0613" (some exampleReq) =
      ((3 : Int) + (lengthTokenizer "hello" : Int) +
        (lengthTokenizer "user" : Int), none) :=
  c1_prompt_token_sum.2.1 encAll lengthTokenizer rfl rfl

/-- Claim C2 counterexample: the code acquires the tokenizer for the
original model string before the substring fallback, so a model string
that contains "gpt-3.5-turbo" but on which the tokenizer oracle fails
yields a tokenizer error while the canonical identifier yields a count. -/
theorem c2_claim_false :
    countPromptTokens encNoCustom "custom-gpt-3.5-turbo" (some emptyReq) ≠
      countPromptTokens encNoCustom "gpt-3.5-turbo-0613" (some emptyReq) := by
  decide

/-- Claim C2 amended: provided tokenizer acquisition succeeds for the
original model string, a model outside the exact-match table containing
"gpt-3.5-turbo" gives the same result as "gpt-3.5-turbo-0613", and one
containing "gpt-4" but not "gpt-3.5-turbo" the same result as
"gpt-4-0613"; the "gpt-3.5-turbo" check comes first and both substring
checks compare characters exactly. -/
theorem c2_alias_resolution (enc : String → Option (String → Nat))
    (model : String) (occ : Option CreateChatCompletionRequest) :
    (model ∉ exactModels0613 → model ≠ "gpt-3.5-turbo-0301" →
      stringsContains model "gpt-3.5-turbo" = true →
      (enc model).isSome = true →
      countPromptTokens enc model occ =
        countPromptTokens enc "gpt-3.5-turbo-0613" occ)
    ∧ (model ∉ exactModels0613 → model ≠ "gpt-3.5-turbo-0301" →
      stringsContains model "gpt-3.5-turbo" = false →
      stringsContains model "gpt-4" = true →
      (enc model).isSome = true →
      countPromptTokens enc model occ =
        countPromptTokens enc "gpt-4-0613" occ) := by
  constructor
  · intro h1 h2 h3 h5
    have hres : resolveModel model = .alias35turbo := by
      simp [resolveModel, h1, h2, h3]
    cases occ with
    | none => rfl
    | some cc =>
        obtain ⟨tkm, htkm⟩ := Option.isSome_iff_exists.mp h5
        exact countPromptTokens_alias35 enc model cc tkm hres htkm
  · intro h1 h2 h3 h4 h5
    have hres : resolveModel model = .alias4 := by
      simp [resolveModel, h1, h2, h3, h4]
    cases occ with
    | none => rfl
    | some cc =>
        obtain ⟨tkm, htkm⟩ := Option.isSome_iff_exists.mp h5
        exact countPromptTokens_alias4 enc model cc tkm hres htkm

/-- Claim C2 witness: a concrete alias model under an oracle that
succeeds everywhere. -/
theorem c2_alias_resolution_witness :
    countPromptTokens encAll "my-gpt-3.5-turbo" (some emptyReq) =
      countPromptTokens encAll "gpt-3.5-turbo-0613" (some emptyReq) :=
  (c2_alias_resolution encAll "my-gpt-3.5-turbo" (some emptyReq)).1
    (by decide) (by decide) (by decide) rfl

/-- Claim C3 counterexample: tokenizer acquisition happens before family
resolution, so when the oracle fails on "totally-unknown-model" the
returned error is the tokenizer error, not the unknown-model error. -/
theorem c3_claim_false :
    (countPromptTokens encNoUnknown "totally-unknown-model"
        (some emptyReq)).2 ≠
      some (.unsupportedModel "totally-unknown-model") := by
  decide

/-- Claim C3 amended: with a non-nil request, "totally-unknown-model"
always yields a zero count and an error: the unknown-model error when the
tokenizer oracle succeeds for that string, the tokenizer-unavailable
error when it fails. -/
theorem c3_unknown_model (enc : String → Option (String → Nat))
    (cc : CreateChatCompletionRequest) :
    ((enc "totally-unknown-model").isSome = true →
      countPromptTokens enc "totally-unknown-model" (some cc) =
        (0, some (.unsupportedModel "totally-unknown-model")))
    ∧ (enc "totally-unknown-model" = none →
      countPromptTokens enc "totally-unknown-model" (some cc) =
        (0, some (.tokenizerUnavailable "totally-unknown-model"))) := by
  constructor
  · intro h
    obtain ⟨tkm, htkm⟩ := Option.isSome_iff_exists.mp h
    exact countPromptTokens_unknownModel enc _ cc tkm
      resolveModel_totally_unknown htkm
  · intro h
    exact countPromptTokens_noEnc enc _ cc h

/-- Claim C3 witness: the unknown-model error at a concrete request under
an oracle that succeeds everywhere. -/
theorem c3_unknown_model_witness :
    countPromptTokens encAll "totally-unknown-model" (some emptyReq) =
      (0, some (.unsupportedModel "totally-unknown-model")) :=
  (c3_unknown_model encAll emptyReq).1 rfl

/-- Claim C4 counterexample: under the gpt-3.5-turbo-0301 profile, giving
the message the name "bob" changes the count by count "bob" - 1 = +2 with
a per-character tokenizer, not by -1: the name string itself is also
tokenized and added. -/
theorem c4_claim_false :
    (countPromptTokens encAll "gpt-3.5-turbo-0301"
        (some (namedMessageReq "bob" "user" "hi"))).1 ≠
      (countPromptTokens encAll "gpt-3.5-turbo-0301"
        (some (namedMessageReq "" "user" "hi"))).1 - 1 := by
  decide

/-- Claim C4 amended: under the gpt-3.5-turbo-0301 profile, changing a
message's name from empty to a non-empty string while holding role and
content fixed changes the total count by the tokenizer count of the name
minus 1 (given that tokenizing the empty string yields 0); it decreases
by exactly 1 only when the name tokenizes to 0 tokens. -/
theorem c4_name_delta (enc : String → Option (String → Nat))
    (tkm : String → Nat) (nm role content : String) :
    nm ≠ "" → enc "gpt-3.5-turbo-0301" = some tkm → tkm "" = 0 →
    (countPromptTokens enc "gpt-3.5-turbo-0301"
        (some (namedMessageReq nm role content))).1 =
      (countPromptTokens enc "gpt-3.5-turbo-0301"
        (some (namedMessageReq "" role content))).1 + (tkm nm : Int) - 1 := by
  intro hnm henc h0
  rw [countPromptTokens_profile enc _ _ profile0301 tkm
      resolveModel_gpt35_0301 henc,
    countPromptTokens_profile enc _ _ profile0301 tkm
      resolveModel_gpt35_0301 henc]
  simp [sumMessageTokens_eq, namedMessageReq, projectMessage,
    specMessageTokens, profile0301, baseFixedCost, h0, hnm]
  ring

/-- Claim C4 witness: the delta at the concrete name "bob" under a
per-character tokenizer. -/
theorem c4_name_delta_witness :
    (countPromptTokens encAll "gpt-3.5-turbo-0301"
        (some (namedMessageReq "bob" "user" "hi"))).1 =
      (countPromptTokens encAll "gpt-3.5-turbo-0301"
        (some (namedMessageReq "" "user" "hi"))).1 +
        (lengthTokenizer "bob" : Int) - 1 :=
  c4_name_delta encAll lengthTokenizer "bob" "user" "hi" (by decide) rfl rfl

/-- Claim C5: countPromptTokens errors only with one of the four failure
kinds of the spec's taxonomy (invalid input, tokenizer unavailable,
unsupported model, normalization failure), every error comes with a count
of exactly 0, and a nil request always yields the invalid-input error
with a zero count. -/
theorem c5_error_cases (enc : String → Option (String → Nat))
    (model : String) (occ : Option CreateChatCompletionRequest) :
    (∀ e, (countPromptTokens enc model occ).2 = some e →
      (countPromptTokens enc model occ).1 = 0 ∧
      (e = .invalidInput ∨ (∃ m, e = .tokenizerUnavailable m) ∨
        (∃ m, e = .unsupportedModel m) ∨ e = .normalizationFailure))
    ∧ (occ = none →
      countPromptTokens enc model occ = (0, some .invalidInput)) := by
  constructor
  · intro e he
    rcases countPromptTokens_result_cases enc model occ with
      h | h | ⟨m, h⟩ | ⟨m, h⟩ | h
    · rw [h] at he; exact Option.noConfusion he
    · rw [h] at he
      obtain rfl := (Option.some.inj he).symm
      exact ⟨by rw [h], Or.inl rfl⟩
    · rw [h] at he
      obtain rfl := (Option.some.inj he).symm
      exact ⟨by rw [h], Or.inr (Or.inl ⟨m, rfl⟩)⟩
    · rw [h] at he
      obtain rfl := (Option.some.inj he).symm
      exact ⟨by rw [h], Or.inr (Or.inr (Or.inl ⟨m, rfl⟩))⟩
    · rw [h] at he
      obtain rfl := (Option.some.inj he).symm
      exact ⟨by rw [h], Or.inr (Or.inr (Or.inr rfl))⟩
  · intro h; subst h; rfl

/-- Claim C5 witness: the nil request at a concrete model. -/
theorem c5_error_cases_witness :
    countPromptTokens encAll "gpt-4-0613" none = (0, some .invalidInput) :=
  (c5_error_cases encAll "gpt-4-0613" none).2 rfl

/-- Claim C6: tool and function definitions contribute nothing: two
non-nil requests whose message lists project to the same
{name, role, content} triples get the same result, whatever their tool
definitions and other fields. -/
theorem c6_tool_noninterference (enc : String → Option (String → Nat))
    (model : String) (cc1 cc2 : CreateChatCompletionRequest)
    (h : cc1.messages.map projectMessage = cc2.messages.map projectMessage) :
    countPromptTokens enc model (some cc1) =
      countPromptTokens enc model (some cc2) :=
  countPromptTokensFuel_congr enc cc1 cc2 h 2 model

/-- A request with the same single message as exampleReq but with tool
definitions, a tool-call payload on the message, and an extra request
field. -/
def tooledReq : CreateChatCompletionRequest :=
  ⟨[⟨"user", "", "hello", [("tool_calls", Json.arr [])]⟩],
    [Json.obj [("type", Json.str "function")]],
    [("tool_choice", Json.str "auto")]⟩

/-- Claim C6 witness: concrete requests differing only in tool payloads. -/
theorem c6_tool_noninterference_witness :
    countPromptTokens encAll "gpt-4-0613" (some exampleReq) =
      countPromptTokens encAll "gpt-4-0613" (some tooledReq) :=
  c6_tool_noninterference encAll "gpt-4-0613" exampleReq tooledReq rfl

/-- Claim C7: for every model with an exact fixed-cost profile, a non-nil
request with an empty message list counts 0 with no error. -/
theorem c7_empty_messages (enc : String → Option (String → Nat))
    (tkm : String → Nat) (model : String) (fc : fixedTokenCost)
    (cc : CreateChatCompletionRequest) :
    resolveModel model = .profile fc → enc model = some tkm →
    cc.messages = [] →
    countPromptTokens enc model (some cc) = (0, none) := by
  intro hres henc hmsgs
  rw [countPromptTokens_profile enc model cc fc tkm hres henc, hmsgs]
  rfl

/-- A request with no messages but with a tool definition. -/
def emptyMsgsTooledReq : CreateChatCompletionRequest :=
  ⟨[], [Json.str "tooldef"], []⟩

/-- Claim C7 witness: the empty message list under gpt-4-0314. -/
theorem c7_empty_messages_witness :
    countPromptTokens encAll "gpt-4-0314" (some emptyMsgsTooledReq) =
      (0, none) :=
  c7_empty_messages encAll lengthTokenizer "gpt-4-0314" profile0613
    emptyMsgsTooledReq (by decide) rfl rfl

/-- Claim C8: normalization always succeeds on the modelled request shape
and returns exactly the positional {name, role, content} projection of
the input message list, so it preserves length and order. -/
theorem c8_normalization_projection (cc : CreateChatCompletionRequest) :
    toTokenRequest cc = .ok { Messages := cc.messages.map projectMessage } ∧
    (cc.messages.map projectMessage).length = cc.messages.length :=
  ⟨toTokenRequest_eq cc, by simp⟩

/-- Claim C9: countPromptTokens terminates on every input: any fuel of at
least 2 computes the same result, and the out-of-fuel marker of the
embedding is never returned — the recursive fallback makes at most one
recursive call because the canonical identifiers are exact matches. -/
theorem c9_fuel_termination (enc : String → Option (String → Nat))
    (model : String) (occ : Option CreateChatCompletionRequest)
    (fuel : Nat) :
    2 ≤ fuel →
    countPromptTokensFuel enc fuel model occ =
      countPromptTokens enc model occ ∧
    (countPromptTokens enc model occ).2 ≠ some .outOfFuel := by
  intro hfuel
  obtain ⟨k, rfl⟩ : ∃ k, fuel = k + 2 := ⟨fuel - 2, by omega⟩
  refine ⟨countPromptTokensFuel_stable enc model occ k, ?_⟩
  rcases countPromptTokens_result_cases enc model occ with
    h | h | ⟨m, h⟩ | ⟨m, h⟩ | h <;> rw [h] <;> simp

/-- Claim C9 witness: larger fuel agrees with the definition on a
concrete alias model that exercises the recursive fallback. -/
theorem c9_fuel_termination_witness :
    countPromptTokensFuel encAll 5 "gpt-4" (some exampleReq) =
      countPromptTokens encAll "gpt-4" (some exampleReq) ∧
    (countPromptTokens encAll "gpt-4" (some exampleReq)).2 ≠
      some .outOfFuel :=
  c9_fuel_termination encAll "gpt-4" (some exampleReq) 5 (by decide)

/-- Claim C10: whenever countPromptTokens returns without error, the
request was non-nil, normalization succeeded, and the count is at least 3
times the number of normalized messages, hence non-negative. -/
theorem c10_count_lower_bound (enc : String → Option (String → Nat))
    (model : String) (occ : Option CreateChatCompletionRequest) (n : Int) :
    countPromptTokens enc model occ = (n, none) →
    ∃ cc req, occ = some cc ∧ toTokenRequest cc = .ok req ∧
      3 * (req.Messages.length : Int) ≤ n ∧ 0 ≤ n := by
  intro h
  cases occ with
  | none => rw [countPromptTokens_nil] at h; simp at h
  | some cc =>
      have hb := countPromptTokensFuel_ok_bound enc 2 model cc n h
      refine ⟨cc, { Messages := cc.messages.map projectMessage }, rfl,
        toTokenRequest_eq cc, by simpa using hb, by omega⟩

/-- Claim C10 witness: the bound at a concrete request whose count is 12. -/
theorem c10_count_lower_bound_witness :
    ∃ cc req, (some exampleReq = some cc) ∧
      toTokenRequest cc = .ok req ∧
      3 * (req.Messages.length : Int) ≤ (12 : Int) ∧ (0 : Int) ≤ (12 : Int) :=
  c10_count_lower_bound encAll "gpt-3.5-turbo-16k-0613" (some exampleReq) 12
    (by decide)

end ClickyChats
